import Mathlib

/-! # Verification of the FactoryLint naming-convention linter core

A shallow embedding of `linter.py`: the resource classifier
(`identify_adf_resource`), the rule evaluators (`lint_linked_service`,
`lint_dataset`, `lint_pipeline`, `lint_trigger`, `lint_key_vault`) and the
dispatcher (`lint_resource`).

Modelling conventions:
* Python strings are Lean `String`s; character-level work is done on
  `String.data` (`List Char`).
* Python code that can raise is modelled in `Except String`; an
  `Except.error` value stands for an uncaught Python exception
  (`KeyError`, `AttributeError`, `TypeError`, `re.error`).  The error
  message records the exception kind; its exact text is a modelling choice.
* The regexes of `linter.py` are anchored `^...$` patterns matched with
  `re.match`; they are embedded as decidable predicates on `List Char`
  denoting the same language, with `$` read as end-of-string.  (Python's
  `$` also accepts a single trailing newline; no statement below
  distinguishes such inputs.)
* The abbreviation table, loaded once from `system_abbreviations.json`
  into the module-level global `ABBREVIATIONS`, is passed explicitly to
  the evaluators and the dispatcher.
-/

/-! ## Python string primitives -/

/-- Python `str.split(sep)` for a single-character separator: keeps empty
pieces, and the split of the empty string is `[""]`. -/
def pySplit (sep : Char) : List Char → List (List Char)
  | [] => [[]]
  | a :: rest =>
    match pySplit sep rest with
    | [] => [[]]
    | t :: ts => if a = sep then [] :: t :: ts else (a :: t) :: ts

/-- Python `sep.join(pieces)` for a single-character separator. -/
def pyJoin (sep : Char) : List (List Char) → List Char
  | [] => []
  | [t] => t
  | t :: ts => t ++ sep :: pyJoin sep ts

/-- Python `str.lower()`; `Char.toLower` agrees with it on ASCII, which is
all the classifier compares against. -/
def pyLower (s : List Char) : List Char := s.map Char.toLower

theorem pySplit_ne_nil (sep : Char) (cs : List Char) : pySplit sep cs ≠ [] := by
  induction cs with
  | nil => simp [pySplit]
  | cons a rest ih =>
    simp only [pySplit]
    cases h : pySplit sep rest with
    | nil => exact absurd h ih
    | cons t ts =>
      by_cases ha : a = sep <;> simp [ha]

/-- Joining the pieces of a split with the same separator restores the
original string (used for the trigger evaluator's re-derived pattern). -/
theorem pyJoin_pySplit (sep : Char) (cs : List Char) :
    pyJoin sep (pySplit sep cs) = cs := by
  induction cs with
  | nil => simp [pySplit, pyJoin]
  | cons a rest ih =>
    simp only [pySplit]
    cases h : pySplit sep rest with
    | nil => exact absurd h (pySplit_ne_nil sep rest)
    | cons t ts =>
      rw [h] at ih
      by_cases ha : a = sep
      · simp only [ha, if_pos rfl, pyJoin]
        cases ts <;> simp_all [pyJoin]
      · simp only [if_neg ha]
        cases ts with
        | nil => simpa [pyJoin] using ih
        | cons t2 ts2 => simpa [pyJoin] using ih

/-! ## Static tables (`linter.py` lines 8-26)

`ABBREVIATIONS` is built from `system_abbreviations.json` at import time;
its two entries are the `LinkedService` and `Dataset` prefix lists.  The
evaluators receive it as an explicit argument standing for the
module-level global. -/

structure Abbreviations where
  linkedService : List String
  dataset : List String

/-- The `FORMAT_MAPPING` dict; `dict.get` is `Option`-valued lookup. -/
def FORMAT_MAPPING (dataset_type : String) : Option String :=
  if dataset_type = "DelimitedText" then some "CSV"
  else if dataset_type = "AzureSqlTable" then some "TABLE"
  else if dataset_type = "Parquet" then some "PARQUET"
  else if dataset_type = "Json" then some "JSON"
  else if dataset_type = "Excel" then some "EXCEL"
  else if dataset_type = "Avro" then some "AVRO"
  else if dataset_type = "Binary" then some "BIN"
  else if dataset_type = "XML" then some "XML"
  else if dataset_type = "Orc" then some "ORC"
  else none

/-! ## Rule evaluator: linked service (`lint_linked_service`) -/

/-- `lint_linked_service(ls_name)`: the `LS_` check and the
abbreviation-table check append their violations independently. -/
def lint_linked_service (tbl : Abbreviations) (ls_name : String) : List String :=
  (if "LS_".data.isPrefixOf ls_name.data then []
   else ["Linked Service must start with 'LS_'"]) ++
  (if tbl.linkedService.any (fun p => p.data.isPrefixOf ls_name.data) then []
   else ["Linked Service '" ++ ls_name ++ "' does not match known prefixes"])

/-! ## Rule evaluator: dataset (`lint_dataset`) -/

/-- Character class `[A-Z0-9_]` of the dataset detail regex. -/
def upperWordCh (c : Char) : Bool := c.isUpper || c.isDigit || c = '_'

/-- Denotation of `re.match(r"^[A-Z0-9_]+$", s)`: nonempty and all
characters in the class. -/
def detailOk (cs : List Char) : Bool := !cs.isEmpty && cs.all upperWordCh

/-- The detail segment `"_".join(ds_name.split("_")[2:-1])`; the Python
slice `[2:-1]` is drop-two-then-drop-last. -/
def dataset_detail (cs : List Char) : List Char :=
  pyJoin '_' (((pySplit '_' cs).drop 2).dropLast)

/-- `lint_dataset(ds_name, dataset_type)`: prefix check, format-suffix
check (skipped on a `FORMAT_MAPPING` miss; every mapped suffix is a
nonempty, hence truthy, string) and detail-segment check, appending
independently. -/
def lint_dataset (tbl : Abbreviations) (ds_name dataset_type : String) : List String :=
  (if "DS_".data.isPrefixOf ds_name.data then []
   else ["Dataset must start with 'DS_'"]) ++
  (match FORMAT_MAPPING dataset_type with
   | some fmt =>
     if ("_" ++ fmt).data.isSuffixOf ds_name.data then []
     else ["Dataset '" ++ ds_name ++ "' must end with format suffix '_" ++ fmt ++ "'"]
   | none => []) ++
  (if detailOk (dataset_detail ds_name.data) then []
   else ["Dataset detail part '" ++ String.mk (dataset_detail ds_name.data) ++
         "' must be uppercase letters, numbers or underscores only"])

/-! ## Rule evaluator: pipeline (`lint_pipeline`) -/

/-- Python substring containment `needle in hay` for strings. -/
def containsSub (p : List Char) : List Char → Bool
  | [] => p.isEmpty
  | c :: rest => p.isPrefixOf (c :: rest) || containsSub p rest

/-- Character class `[A-Za-z0-9_]` of the pipeline regexes. -/
def wordCh (c : Char) : Bool := c.isUpper || c.isLower || c.isDigit || c = '_'

/-- Match a literal regex fragment and return the remaining input. -/
def dropLit : List Char → List Char → Option (List Char)
  | [], cs => some cs
  | l :: ls, c :: cs => if c = l then dropLit ls cs else none
  | _ :: _, [] => none

/-- Denotation of the common regex tail `(_[A-Za-z0-9_]+)?_[A-Za-z0-9_]+`:
since `_` itself is in the class, it matches exactly the strings
`'_' :: u` with `u` nonempty and inside the class. -/
def tailOk : List Char → Bool
  | u :: rest => u == '_' && !rest.isEmpty && rest.all wordCh
  | [] => false

/-- Apply `tailOk` to what is left after a literal fragment, failing when
the literal itself did not match. -/
def optTail (o : Option (List Char)) : Bool :=
  match o with
  | some t => tailOk t
  | none => false

/-- Denotation of the master regex
`^\d{3}_00_Master(_[A-Za-z0-9_]+)?_[A-Za-z0-9_]+$`. -/
def masterCore (cs : List Char) : Bool :=
  match cs with
  | a :: b :: c :: rest =>
    a.isDigit && b.isDigit && c.isDigit && optTail (dropLit "_00_Master".data rest)
  | _ => false

/-- The sequence-number group `(0[1-9]|[1-9][0-9])` of the sub regex. -/
def subGroup (x y : Char) : Bool :=
  (x = '0' && y.isDigit && y ≠ '0') || (x.isDigit && x ≠ '0' && y.isDigit)

/-- Denotation of the sub regex
`^\d{3}_(0[1-9]|[1-9][0-9])(_[A-Za-z0-9_]+)?_[A-Za-z0-9_]+$`. -/
def subCore (cs : List Char) : Bool :=
  match cs with
  | a :: b :: c :: u :: x :: y :: rest =>
    a.isDigit && b.isDigit && c.isDigit && u == '_' && subGroup x y && tailOk rest
  | _ => false

/-- `lint_pipeline(pipeline_name)`: master names pass, sub names must not
contain `Master`, anything else gets the conventions violation. -/
def lint_pipeline (pipeline_name : String) : List String :=
  if masterCore pipeline_name.data then []
  else if subCore pipeline_name.data then
    if containsSub "Master".data pipeline_name.data then
      ["Sub-pipeline '" ++ pipeline_name ++ "' should not include 'Master' in its name"]
    else []
  else
    ["Pipeline '" ++ pipeline_name ++ "' must follow naming conventions for Master or Sub-pipelines"]

/-! ## Rule evaluator: trigger (`lint_trigger`) -/

/-- The alternation `(Daily|Hourly|Weekly|Monthly|File)` of the trigger
pattern. -/
def freqWords : List (List Char) :=
  ["Daily".data, "Hourly".data, "Weekly".data, "Monthly".data, "File".data]

/-- Characters special to Python regular expressions. -/
def reMeta : List Char := "\\.^$*+?()[]|\x7b\x7d".data

/-- A token that is interpolated verbatim into a pattern behaves as a
literal exactly when it contains no regex metacharacter. -/
def reSafe (cs : List Char) : Bool := cs.all (fun c => !reMeta.contains c)

/-- The f-string `rf"^(Daily|Hourly|Weekly|Monthly|File)-{project_name}-{pipeline_name}$"`. -/
def triggerPatternStr (project pipeline : String) : String :=
  "^(Daily|Hourly|Weekly|Monthly|File)-" ++ project ++ "-" ++ pipeline ++ "$"

/-- Denotation of `re.match` against the re-derived pattern when both
interpolated tokens are metacharacter-free: the name is one of the five
frequency words, a hyphen, the project token, a hyphen, the pipeline
token. -/
def triggerMatch (project pipeline name : List Char) : Bool :=
  freqWords.any (fun f => name == f ++ ('-' :: (project ++ ('-' :: pipeline))))

/-- Step 4 of the trigger evaluator: build the pattern from the split-out
tokens and `re.match` it against the full name.  A metacharacter in a
token makes the built pattern's behaviour depend on the regex engine —
for some tokens (e.g. an unbalanced parenthesis) compilation raises
`re.error` — and is modelled as an engine error; this is exact for the
inputs examined below and conservative elsewhere. -/
def reDerivedCheck (project pipeline name : String) : Except String (List String) :=
  if reSafe project.data && reSafe pipeline.data then
    .ok (if triggerMatch project.data pipeline.data name.data then []
         else ["Trigger '" ++ name ++ "' does not match required pattern '" ++
               triggerPatternStr project pipeline ++ "'"])
  else .error ("re.error: invalid pattern '" ++ triggerPatternStr project pipeline ++ "'")

/-- `lint_trigger(trigger_name, trigger_type)`: the two frequency checks,
then the `IndexError` guard around `split('-')[1]` (which fires exactly
when the name has no hyphen, appending to the violations collected so
far and returning), then the re-derived pattern check, whose `re.error`
is not caught and discards the collected violations. -/
def lint_trigger (trigger_name trigger_type : String) : Except String (List String) :=
  let errors :=
    (if trigger_type == "ScheduleTrigger" &&
        !(["Daily-", "Hourly-", "Weekly-", "Monthly-"].any
            (fun p => p.data.isPrefixOf trigger_name.data)) then
       ["Scheduled trigger '" ++ trigger_name ++
        "' must start with frequency (Daily/Hourly/Weekly/Monthly)"]
     else []) ++
    (if trigger_type == "BlobEventsTrigger" &&
        !("File-".data.isPrefixOf trigger_name.data) then
       ["File trigger '" ++ trigger_name ++ "' must start with 'File-'"]
     else [])
  let toks := pySplit '-' trigger_name.data
  if toks.length < 2 then
    .ok (errors ++ ["Trigger '" ++ trigger_name ++ "' is not properly formatted"])
  else
    let project := (toks[1]?).getD []
    let pipeline := (toks.getLast?).getD []
    match reDerivedCheck (String.mk project) (String.mk pipeline) trigger_name with
    | .ok v => .ok (errors ++ v)
    | .error e => .error e

/-! ## Rule evaluator: key vault (`lint_key_vault`) -/

/-- `lint_key_vault(kv_name, kv_type)`: the secret kind, lowercased, must
be one of `username`, `password`, `url`. -/
def lint_key_vault (kv_name kv_type : String) : List String :=
  if ["username", "password", "url"].contains (String.mk (pyLower kv_type.data)) then []
  else ["Key Vault '" ++ kv_name ++ "' type '" ++ kv_type ++
        "' is invalid. Must be username/password/url"]

/-! ## Parsed JSON documents

A resource document is a parsed JSON object: a dict with string keys and
JSON values.  `PyVal` covers the JSON value kinds; `PyObj` is a dict
(association list, first key wins as in a deduplicated Python dict) and
`PyList` an array. -/

mutual

inductive PyVal where
  | str (s : String)
  | int (n : Int)
  | bool (b : Bool)
  | pynone
  | list (l : PyList)
  | dict (d : PyObj)

inductive PyList where
  | nil
  | cons (v : PyVal) (tl : PyList)

inductive PyObj where
  | nil
  | cons (k : String) (v : PyVal) (tl : PyObj)

end

/-- Dict lookup, `d.get(key)`. -/
def PyObj.find : PyObj → String → Option PyVal
  | .nil, _ => none
  | .cons k v tl, key => if k = key then some v else tl.find key

/-- Python `key in dict`. -/
def PyObj.hasKey (o : PyObj) (key : String) : Bool := (o.find key).isSome

/-- Python `key in list`: some element equals the string (a non-string
element is simply unequal). -/
def PyList.hasStr : PyList → String → Bool
  | .nil, _ => false
  | .cons v tl, key =>
    (match v with | .str s => s == key | _ => false) || tl.hasStr key

/-- Python `key in value`: key membership for a dict, substring test for
a string, element membership for a list; any other value is not iterable
and raises `TypeError`. -/
def pyIn (key : String) (v : PyVal) : Except String Bool :=
  match v with
  | .dict d => .ok (d.hasKey key)
  | .str s => .ok (containsSub key.data s.data)
  | .list l => .ok (l.hasStr key)
  | _ => .error "TypeError: argument is not iterable"

/-- Python `key1 in v and key2 in v`.  (Python short-circuits the second
test; since `pyIn` raises independently of the key, evaluating both is
equivalent.) -/
def pyIn2 (key1 key2 : String) (v : PyVal) : Except String Bool :=
  match pyIn key1 v with
  | .error e => .error e
  | .ok b1 =>
    match pyIn key2 v with
    | .error e => .error e
    | .ok b2 => .ok (b1 && b2)

mutual

/-- Python `repr` of a JSON value (element rendering inside containers). -/
def pyRepr : PyVal → String
  | .str s => "'" ++ s ++ "'"
  | .int n => toString n
  | .bool b => if b then "True" else "False"
  | .pynone => "None"
  | .list l => "[" ++ pyReprList l ++ "]"
  | .dict d => "\x7b" ++ pyReprObj d ++ "\x7d"

/-- Comma-separated renderings of array elements. -/
def pyReprList : PyList → String
  | .nil => ""
  | .cons v .nil => pyRepr v
  | .cons v tl => pyRepr v ++ ", " ++ pyReprList tl

/-- Comma-separated renderings of dict entries. -/
def pyReprObj : PyObj → String
  | .nil => ""
  | .cons k v .nil => "'" ++ k ++ "': " ++ pyRepr v
  | .cons k v tl => "'" ++ k ++ "': " ++ pyRepr v ++ ", " ++ pyReprObj tl

end

/-- Python `str` of a JSON value, as interpolated by an f-string. -/
def pyStr : PyVal → String
  | .str s => s
  | v => pyRepr v

/-! ## Resource classifier (`identify_adf_resource`) -/

inductive ADFResourceType where
  | PIPELINE
  | DATASET
  | LINKED_SERVICE
  | TRIGGER
  | UNKNOWN
deriving DecidableEq

/-- Body of the classifier once `.lower()` on the top-level `type` has
succeeded with result `top_type`: ARM-style suffix detection first, then
structural detection on `properties` (`resource_json.get("properties", {})`),
else Unknown. -/
def identifyFromTop (doc : PyObj) (top_type : List Char) : Except String ADFResourceType :=
  if "/pipelines".data.isSuffixOf top_type then .ok .PIPELINE
  else if "/datasets".data.isSuffixOf top_type then .ok .DATASET
  else if "/linkedservices".data.isSuffixOf top_type then .ok .LINKED_SERVICE
  else if "/triggers".data.isSuffixOf top_type then .ok .TRIGGER
  else
    match pyIn "activities" ((doc.find "properties").getD (.dict .nil)) with
    | .error e => .error e
    | .ok true => .ok .PIPELINE
    | .ok false =>
    match pyIn2 "typeProperties" "linkedServiceName" ((doc.find "properties").getD (.dict .nil)) with
    | .error e => .error e
    | .ok true => .ok .DATASET
    | .ok false =>
    match pyIn2 "connectVia" "type" ((doc.find "properties").getD (.dict .nil)) with
    | .error e => .error e
    | .ok true => .ok .LINKED_SERVICE
    | .ok false =>
    match pyIn2 "pipelines" "type" ((doc.find "properties").getD (.dict .nil)) with
    | .error e => .error e
    | .ok true => .ok .TRIGGER
    | .ok false => .ok .UNKNOWN

/-- Classify a resource document: lower the top-level `type`
(`resource_json.get("type", "")`), then run `identifyFromTop`.  A
non-string `type` value has no `lower` attribute and raises. -/
def identify_adf_resource (doc : PyObj) : Except String ADFResourceType :=
  match (doc.find "type").getD (.str "") with
  | .str s => identifyFromTop doc (pyLower s.data)
  | _ => .error "AttributeError: object has no attribute lower"

/-- The `type` field, when present, is a string (so `.lower()` succeeds). -/
def typeOk (doc : PyObj) : Bool :=
  match doc.find "type" with
  | none => true
  | some (.str _) => true
  | some _ => false

/-- Values on which Python `in` succeeds. -/
def pyInSafe : PyVal → Bool
  | .dict _ => true
  | .str _ => true
  | .list _ => true
  | _ => false

/-- The `properties` field, when present, supports `in`. -/
def propsOk (doc : PyObj) : Bool :=
  match doc.find "properties" with
  | none => true
  | some v => pyInSafe v

/-! ## Dispatcher (`lint_resource`) -/

/-- Dict subscription `d[key]`; a missing key raises `KeyError`. -/
def PyObj.getItem (o : PyObj) (key : String) : Except String PyVal :=
  match o.find key with
  | some v => .ok v
  | none => .error ("KeyError: '" ++ key ++ "'")

/-- A field consumed as a string by an evaluator; the evaluators' first
string operation on a non-string value raises in Python. -/
def asStr : PyVal → Except String String
  | .str s => .ok s
  | _ => .error "TypeError: expected a str"

/-- A field subscripted further; subscripting a non-dict by a string key
raises `TypeError`. -/
def asObj : PyVal → Except String PyObj
  | .dict d => .ok d
  | _ => .error "TypeError: expected a dict"

/-- `lint_resource(resource_json)`: classify, then route to the matching
evaluator with the fields it needs; field accesses are unguarded.  (The
Python function also prints the classified kind; console output is not
modelled.) -/
def lint_resource (tbl : Abbreviations) (doc : PyObj) : Except String (List String) := do
  let rt ← identify_adf_resource doc
  match rt with
  | .PIPELINE => do
    let n ← asStr (← doc.getItem "name")
    pure (lint_pipeline n)
  | .DATASET => do
    let n ← asStr (← doc.getItem "name")
    let props ← asObj (← doc.getItem "properties")
    let t ← asStr (← props.getItem "type")
    pure (lint_dataset tbl n t)
  | .LINKED_SERVICE => do
    let n ← asStr (← doc.getItem "name")
    pure (lint_linked_service tbl n)
  | .TRIGGER => do
    let n ← asStr (← doc.getItem "name")
    let props ← asObj (← doc.getItem "properties")
    let t ← asStr (← props.getItem "type")
    lint_trigger n t
  | .UNKNOWN =>
    pure ["Unknown resource type for " ++
          (match doc.find "name" with
           | some v => pyStr v
           | none => "N/A")]

deriving instance DecidableEq for Except

/-! ## Sanity checks on the embedding -/

example : lint_pipeline "001_00_Master_Hilan" = [] := by decide
example : lint_pipeline "001_02_Hilan" = [] := by decide
example : lint_pipeline "001_02_Master_X" ≠ [] := by decide
example : lint_pipeline "xyz" ≠ [] := by decide
example : lint_key_vault "DataSource-username" "Username" = [] := by decide
example : lint_trigger "Daily-SAPBW-hilan" "ScheduleTrigger" = .ok [] := by decide
example :
    identify_adf_resource (.cons "type" (.str "Microsoft.DataFactory/factories/datasets") .nil) =
      .ok .DATASET := by decide

/-! ## Supporting lemmas -/

/-- Stripping a literal succeeds exactly on inputs that extend it. -/
theorem dropLit_some (l : List Char) :
    ∀ cs t, dropLit l cs = some t → cs = l ++ t := by
  induction l with
  | nil => intro cs t h; simp [dropLit] at h; simp [h]
  | cons x ls ih =>
    intro cs t h
    cases cs with
    | nil => simp [dropLit] at h
    | cons c cs' =>
      unfold dropLit at h
      by_cases hc : c = x
      · rw [if_pos hc] at h
        rw [hc, List.cons_append]
        exact congrArg _ (ih cs' t h)
      · rw [if_neg hc] at h
        exact absurd h (by simp)

/-- An `optTail` success means the literal matched and `tailOk` holds of
the remainder. -/
theorem optTail_eq_true (o : Option (List Char)) (h : optTail o = true) :
    ∃ t, o = some t ∧ tailOk t = true := by
  cases o with
  | none => exact absurd h (by simp [optTail])
  | some t => exact ⟨t, rfl, by simpa [optTail] using h⟩

/-- A master name and a sub name are mutually exclusive: the master
pattern pins characters 4-5 to `00`, which the sub pattern's sequence
group `(0[1-9]|[1-9][0-9])` rejects. -/
theorem master_sub_disjoint : ∀ (cs : List Char), masterCore cs = true → subCore cs = false
  | [], _ => rfl
  | [_], _ => rfl
  | [_, _], _ => rfl
  | a :: b :: c :: rest, h => by
    simp only [masterCore, Bool.and_eq_true] at h
    obtain ⟨-, hm⟩ := h
    obtain ⟨t, hd, -⟩ := optTail_eq_true _ hm
    have hrest : rest = "_00_Master".data ++ t := dropLit_some _ _ _ hd
    rw [show "_00_Master".data = ['_', '0', '0', '_', 'M', 'a', 's', 't', 'e', 'r'] from rfl] at hrest
    subst hrest
    simp only [subCore, List.cons_append]
    rw [show subGroup '0' '0' = false from by decide]
    simp

/-- The Python slice `[2:-1]` of a list with fewer than 4 elements is
empty. -/
theorem slice_small {α : Type} : ∀ (l : List α), l.length < 4 → (l.drop 2).dropLast = []
  | [], _ => rfl
  | [_], _ => rfl
  | [_, _], _ => rfl
  | [_, _, _], _ => rfl
  | _ :: _ :: _ :: _ :: rest, h => by
    exfalso
    simp only [List.length_cons] at h
    omega

/-- Membership on an `in`-supporting value never raises. -/
theorem pyIn_isOk (k : String) (v : PyVal) (h : pyInSafe v = true) :
    ∃ b, pyIn k v = .ok b := by
  cases v <;> simp [pyInSafe] at h <;> exact ⟨_, rfl⟩

/-- Conjoined membership on an `in`-supporting value never raises. -/
theorem pyIn2_isOk (k1 k2 : String) (v : PyVal) (h : pyInSafe v = true) :
    ∃ b, pyIn2 k1 k2 v = .ok b := by
  obtain ⟨b1, h1⟩ := pyIn_isOk k1 v h
  obtain ⟨b2, h2⟩ := pyIn_isOk k2 v h
  exact ⟨b1 && b2, by unfold pyIn2; rw [h1, h2]⟩

/-- On a document whose `type` field (if any) is a string, classification
runs the post-`lower` body on some lowered string. -/
theorem identify_eq_fromTop (doc : PyObj) (ht : typeOk doc = true) :
    ∃ s : String, identify_adf_resource doc = identifyFromTop doc (pyLower s.data) := by
  unfold typeOk at ht
  cases hf : doc.find "type" with
  | none => exact ⟨"", by unfold identify_adf_resource; rw [hf]; rfl⟩
  | some v =>
    rw [hf] at ht
    cases v with
    | str s => exact ⟨s, by unfold identify_adf_resource; rw [hf]; rfl⟩
    | int n => simp at ht
    | bool b => simp at ht
    | pynone => simp at ht
    | list l => simp at ht
    | dict d => simp at ht

/-- On a document whose `properties` field (if any) supports `in`, the
post-`lower` classifier body returns a kind. -/
theorem identifyFromTop_isOk (doc : PyObj) (t : List Char)
    (hp : propsOk doc = true) : (identifyFromTop doc t).isOk = true := by
  have hsafe : pyInSafe ((doc.find "properties").getD (.dict .nil)) = true := by
    unfold propsOk at hp
    cases hfp : doc.find "properties" with
    | none => rfl
    | some v => rw [hfp] at hp; exact hp
  unfold identifyFromTop
  cases c1 : "/pipelines".data.isSuffixOf t
  case true => simp [c1, Except.isOk, Except.toBool]
  simp only [c1, Bool.false_eq_true, if_false]
  cases c2 : "/datasets".data.isSuffixOf t
  case true => simp [c2, Except.isOk, Except.toBool]
  simp only [c2, Bool.false_eq_true, if_false]
  cases c3 : "/linkedservices".data.isSuffixOf t
  case true => simp [c3, Except.isOk, Except.toBool]
  simp only [c3, Bool.false_eq_true, if_false]
  cases c4 : "/triggers".data.isSuffixOf t
  case true => simp [c4, Except.isOk, Except.toBool]
  simp only [c4, Bool.false_eq_true, if_false]
  obtain ⟨b1, e1⟩ := pyIn_isOk "activities" _ hsafe
  rw [e1]
  cases b1
  case true => rfl
  obtain ⟨b2, e2⟩ := pyIn2_isOk "typeProperties" "linkedServiceName" _ hsafe
  rw [e2]
  cases b2
  case true => rfl
  obtain ⟨b3, e3⟩ := pyIn2_isOk "connectVia" "type" _ hsafe
  rw [e3]
  cases b3
  case true => rfl
  obtain ⟨b4, e4⟩ := pyIn2_isOk "pipelines" "type" _ hsafe
  rw [e4]
  cases b4 <;> rfl

/-- On a document whose `type` field (if any) is a string and whose
`properties` field (if any) supports `in`, the classifier returns a
kind. -/
theorem identify_isOk (doc : PyObj) (ht : typeOk doc = true)
    (hp : propsOk doc = true) : (identify_adf_resource doc).isOk = true := by
  obtain ⟨s, hs⟩ := identify_eq_fromTop doc ht
  rw [hs]
  exact identifyFromTop_isOk doc (pyLower s.data) hp

/-! ## Claims -/

/-- C1 (counterexample): membership of `ADLS` alone in the LinkedService
abbreviation set does not make `LS_ADLS_LZ_ONPREMIR` pass, because
`startswith` compares each abbreviation at position 0 of the name, which
begins `LS_`, not `ADLS`. -/
theorem linked_service_abbreviation_member_insufficient :
    lint_linked_service ⟨["ADLS"], []⟩ "LS_ADLS_LZ_ONPREMIR" ≠ [] := by decide

/-- C1 (amended): for `LS_ADLS_LZ_ONPREMIR`, when some member of the
LinkedService abbreviation set is a prefix of the name (e.g. `LS_ADLS`)
the evaluator returns no violations; when no member is a prefix it
returns exactly the abbreviation violation and not the `LS_` prefix
violation. -/
theorem linked_service_prefix_member_cases (tbl : Abbreviations) :
    (tbl.linkedService.any (fun p => p.data.isPrefixOf "LS_ADLS_LZ_ONPREMIR".data) = true →
      lint_linked_service tbl "LS_ADLS_LZ_ONPREMIR" = []) ∧
    (tbl.linkedService.any (fun p => p.data.isPrefixOf "LS_ADLS_LZ_ONPREMIR".data) = false →
      lint_linked_service tbl "LS_ADLS_LZ_ONPREMIR" =
        ["Linked Service 'LS_ADLS_LZ_ONPREMIR' does not match known prefixes"]) := by
  have hpre : "LS_".data.isPrefixOf "LS_ADLS_LZ_ONPREMIR".data = true := by decide
  constructor <;> intro h <;> simp [lint_linked_service, hpre, h]

/-- C1 (witness): instantiation at the table containing `LS_ADLS` and at
the empty table. -/
theorem linked_service_prefix_member_cases_witness :
    lint_linked_service ⟨["LS_ADLS"], []⟩ "LS_ADLS_LZ_ONPREMIR" = [] ∧
    lint_linked_service ⟨[], []⟩ "LS_ADLS_LZ_ONPREMIR" =
      ["Linked Service 'LS_ADLS_LZ_ONPREMIR' does not match known prefixes"] :=
  ⟨(linked_service_prefix_member_cases ⟨["LS_ADLS"], []⟩).1 (by decide),
   (linked_service_prefix_member_cases ⟨[], []⟩).2 (by decide)⟩

/-- C2: the dispatcher does not convert missing nested fields into a
"malformed resource" violation; it propagates the lookup failure.  A
Dataset document without `properties` aborts with `KeyError`, as does a
Pipeline document without `name`. -/
theorem dispatcher_raises_on_missing_fields (tbl : Abbreviations) :
    lint_resource tbl (.cons "type" (.str "Microsoft.DataFactory/factories/datasets")
        (.cons "name" (.str "DS_A_B_CSV") .nil)) = .error "KeyError: 'properties'" ∧
    lint_resource tbl (.cons "type" (.str "Microsoft.DataFactory/factories/pipelines") .nil) =
      .error "KeyError: 'name'" :=
  ⟨rfl, rfl⟩

/-- C3 (counterexample): `Weekly-hilan` splits into two tokens, so
`split('-')[1]` succeeds and the "not properly formatted" branch is not
taken; the single violation is the pattern-mismatch one. -/
theorem trigger_weekly_hilan_not_malformed_message :
    lint_trigger "Weekly-hilan" "ScheduleTrigger" ≠
      .ok ["Trigger 'Weekly-hilan' is not properly formatted"] := by decide

/-- C3 (amended): `Daily-SAPBW-hilan` passes with no violations, and
`Weekly-hilan` yields exactly one violation, namely the "does not match
required pattern" violation (the re-derived pattern `^(...)-hilan-hilan$`
does not match). -/
theorem trigger_example_behaviour :
    lint_trigger "Daily-SAPBW-hilan" "ScheduleTrigger" = .ok [] ∧
    lint_trigger "Weekly-hilan" "ScheduleTrigger" =
      .ok ["Trigger 'Weekly-hilan' does not match required pattern '^(Daily|Hourly|Weekly|Monthly|File)-hilan-hilan$'"] :=
  ⟨by decide, by decide⟩

/-- C4 (counterexample): a 3-token name whose first token is not a
frequency word fails the re-derived check even though it has no extra
segments between project and pipeline. -/
theorem rederived_check_fails_on_three_tokens :
    (pySplit '-' "Foo-A-B".data).length = 3 ∧
    lint_trigger "Foo-A-B" "X" =
      .ok ["Trigger 'Foo-A-B' does not match required pattern '^(Daily|Hourly|Weekly|Monthly|File)-A-B$'"] :=
  ⟨by decide, by decide⟩

/-- C4 (amended): for a trigger name of exactly 3 hyphen-delimited tokens
whose first token is one of the five frequency words and whose
interpolated tokens are regex-metacharacter-free, the re-derived pattern
check always passes. -/
theorem rederived_check_passes_with_frequency_head
    (name : String) (t0 t1 t2 : List Char)
    (hsplit : pySplit '-' name.data = [t0, t1, t2])
    (hfreq : t0 ∈ freqWords)
    (h1 : reSafe t1 = true) (h2 : reSafe t2 = true) :
    reDerivedCheck (String.mk t1) (String.mk t2) name = .ok [] := by
  have hname : name.data = t0 ++ ('-' :: (t1 ++ ('-' :: t2))) := by
    have hjoin := pyJoin_pySplit '-' name.data
    rw [hsplit] at hjoin
    simpa [pyJoin] using hjoin.symm
  have hm : triggerMatch t1 t2 name.data = true := by
    unfold triggerMatch
    rw [List.any_eq_true]
    refine ⟨t0, hfreq, ?_⟩
    show (name.data == t0 ++ ('-' :: (t1 ++ ('-' :: t2)))) = true
    rw [hname]
    exact beq_self_eq_true _
  unfold reDerivedCheck
  rw [show (String.mk t1).data = t1 from rfl, show (String.mk t2).data = t2 from rfl,
      h1, h2, hm]
  simp

/-- C4 (witness): instantiation at `Daily-A-B`. -/
theorem rederived_check_passes_with_frequency_head_witness :
    reDerivedCheck (String.mk "A".data) (String.mk "B".data) "Daily-A-B" = .ok [] :=
  rederived_check_passes_with_frequency_head "Daily-A-B" "Daily".data "A".data "B".data
    (by decide) (by decide) (by decide) (by decide)

/-- C5: the pipeline evaluator returns 0 or 1 violations; among names
matching the master or sub pattern, a violation occurs exactly for sub
names containing `Master`; names matching neither always yield exactly
one violation. -/
theorem pipeline_returns_at_most_one_violation (n : String) :
    (lint_pipeline n).length ≤ 1 ∧
    ((masterCore n.data = true ∨ subCore n.data = true) →
      (lint_pipeline n ≠ [] ↔
        (subCore n.data = true ∧ containsSub "Master".data n.data = true))) ∧
    (masterCore n.data = false → subCore n.data = false →
      (lint_pipeline n).length = 1) := by
  unfold lint_pipeline
  cases hm : masterCore n.data with
  | true =>
    have hs := master_sub_disjoint n.data hm
    simp [hm, hs]
  | false =>
    cases hs : subCore n.data with
    | true =>
      cases hi : containsSub "Master".data n.data <;> simp [hm, hs, hi]
    | false => simp [hm, hs]

/-- C5 (witness): a name matching neither pattern yields exactly one
violation. -/
theorem pipeline_returns_at_most_one_violation_witness :
    (lint_pipeline "Hello").length = 1 :=
  (pipeline_returns_at_most_one_violation "Hello").2.2 (by decide) (by decide)

/-- C6 (counterexample): the classifier is not total on arbitrary
documents: a non-string `type` value has no `lower` attribute and the
call raises instead of returning a kind. -/
theorem classifier_raises_on_nonstring_type :
    identify_adf_resource (.cons "type" (.int 0) .nil) =
      .error "AttributeError: object has no attribute lower" := rfl

/-- C6 (amended): a top-level `type` string ending (case-insensitively)
in `/pipelines` always classifies as Pipeline regardless of the contents
of `properties`; the classifier never fails on documents whose `type`
field, if present, is a string and whose `properties` field, if present,
supports `in`; and absence of both fields falls through to Unknown. -/
theorem classifier_precedence_and_guarded_totality (doc : PyObj) :
    (∀ s : String, doc.find "type" = some (.str s) →
       "/pipelines".data.isSuffixOf (pyLower s.data) = true →
       identify_adf_resource doc = .ok .PIPELINE) ∧
    (typeOk doc = true → propsOk doc = true →
       (identify_adf_resource doc).isOk = true) ∧
    (doc.find "type" = none → doc.find "properties" = none →
       identify_adf_resource doc = .ok .UNKNOWN) := by
  refine ⟨?_, fun ht hp => identify_isOk doc ht hp, ?_⟩
  · intro s hf hsuf
    unfold identify_adf_resource
    rw [hf]
    show identifyFromTop doc (pyLower s.data) = .ok .PIPELINE
    unfold identifyFromTop
    rw [if_pos hsuf]
  · intro hf hp
    unfold identify_adf_resource
    rw [hf]
    show identifyFromTop doc (pyLower "".data) = .ok .UNKNOWN
    unfold identifyFromTop
    rw [hp]
    rfl

/-- C6 (witness): an ARM-style `type` wins over garbage `properties`, and
the empty document classifies as Unknown. -/
theorem classifier_precedence_and_guarded_totality_witness :
    identify_adf_resource
        (.cons "type" (.str "factories/Pipelines") (.cons "properties" (.int 7) .nil)) =
      .ok .PIPELINE ∧
    identify_adf_resource .nil = .ok .UNKNOWN :=
  ⟨(classifier_precedence_and_guarded_totality _).1 "factories/Pipelines" rfl (by decide),
   (classifier_precedence_and_guarded_totality .nil).2.2 rfl rfl⟩

/-- C7: a dataset name with fewer than 4 underscore-delimited tokens has
an empty detail segment, which fails `^[A-Z0-9_]+$`, so the evaluator
returns (rather than crashes) with a detail-segment violation among its
results. -/
theorem dataset_short_name_detail_violation (tbl : Abbreviations) (name ty : String)
    (h : (pySplit '_' name.data).length < 4) :
    dataset_detail name.data = [] ∧
    ("Dataset detail part '" ++ String.mk (dataset_detail name.data) ++
     "' must be uppercase letters, numbers or underscores only") ∈
      lint_dataset tbl name ty := by
  have hd : dataset_detail name.data = [] := by
    unfold dataset_detail
    rw [slice_small _ h]
    rfl
  refine ⟨hd, ?_⟩
  unfold lint_dataset
  rw [hd]
  refine List.mem_append_right _ ?_
  rw [if_neg (by decide : ¬ (detailOk ([] : List Char) = true))]
  exact List.mem_singleton_self _

/-- C7 (witness): instantiation at the 3-token name `DS_A_CSV`. -/
theorem dataset_short_name_detail_violation_witness :
    dataset_detail "DS_A_CSV".data = [] ∧
    ("Dataset detail part '" ++ String.mk (dataset_detail "DS_A_CSV".data) ++
     "' must be uppercase letters, numbers or underscores only") ∈
      lint_dataset ⟨[], []⟩ "DS_A_CSV" "X" :=
  dataset_short_name_detail_violation ⟨[], []⟩ "DS_A_CSV" "X" (by decide)

/-- C8: `DS_SQL_CUSTOMERS_CSV`/`DelimitedText` passes all three checks;
`ds_sql_customers_csv`/`DelimitedText` collects at least the prefix
violation and the detail-case violation. -/
theorem dataset_example_names (tbl : Abbreviations) :
    lint_dataset tbl "DS_SQL_CUSTOMERS_CSV" "DelimitedText" = [] ∧
    "Dataset must start with 'DS_'" ∈ lint_dataset tbl "ds_sql_customers_csv" "DelimitedText" ∧
    "Dataset detail part 'customers' must be uppercase letters, numbers or underscores only" ∈
      lint_dataset tbl "ds_sql_customers_csv" "DelimitedText" := by
  have e : lint_dataset tbl "ds_sql_customers_csv" "DelimitedText" =
      lint_dataset ⟨[], []⟩ "ds_sql_customers_csv" "DelimitedText" := rfl
  refine ⟨rfl, ?_, ?_⟩ <;> rw [e] <;> decide

/-- C9: the trigger evaluator is not total: a project token containing an
unbalanced parenthesis is interpolated unescaped into the re-derived
pattern, whose compilation raises instead of returning a violation
list. -/
theorem trigger_not_total_on_metacharacters :
    lint_trigger "Daily-(-B" "ScheduleTrigger" =
      .error "re.error: invalid pattern '^(Daily|Hourly|Weekly|Monthly|File)-(-B$'" := by decide

/-- C10: the dataset evaluator never consults the Dataset entry of the
abbreviation table: its result is unchanged under any two contents of
that entry. -/
theorem dataset_independent_of_dataset_abbreviations
    (ls d1 d2 : List String) (name ty : String) :
    lint_dataset ⟨ls, d1⟩ name ty = lint_dataset ⟨ls, d2⟩ name ty := rfl
